import Mathlib

/-!
# Que Bella — access-control and data-sharing model

Shallow embedding of the data model, row-level-security policies, uniqueness
constraints and client request flows of the Que Bella couples-journal
application (`src/frontend/src/App.js`, which contains both the React client
and the appended Supabase SQL migration).

Identities (`auth.uid()`, UUID columns) are abstracted as `Nat`; dates
(`DATE` columns) and text columns as `String`.  Each SQL table becomes a
Lean structure mirroring its columns; each RLS policy becomes a decidable
`Bool` predicate over the requesting identity and a row (plus the profiles
table where the policy's SQL contains a subquery).  `UNIQUE` constraints
become guarded inserts returning `Except`.  The client handlers
(`saveJournalEntry`, `generateReflection`, `invitePartner`) become pure
functions parametrised by the outcome of the HTTP requests they issue.
-/

/-- Identities: `auth.uid()` and every `UUID` foreign key, abstracted as `Nat`. -/
abbrev UserId := Nat

/-- `profiles` table (migration lines 650–659): one record per user, with an
optional partner link and optional invite code. -/
structure Profile where
  id : UserId
  email : String
  full_name : Option String
  invite_code : Option String
  partner_id : Option UserId
  allow_read_receipts : Bool
deriving DecidableEq, Repr

/-- `journal_entries` table (migration lines 668–679). -/
structure JournalEntry where
  id : Nat
  user_id : UserId
  content : String
  date : String
  mood : Option String
  audio_url : Option String
  shared_with : List UserId
deriving DecidableEq, Repr

/-- `mood_entries` table (migration lines 689–697). -/
structure MoodEntry where
  id : Nat
  user_id : UserId
  mood : String
  date : String
  shared_with : List UserId
deriving DecidableEq, Repr

/-- `shared_reflections` table (migration lines 706–713).  `user_ids` is a
`UUID[]` column, i.e. an *ordered* array, embedded as `List UserId`. -/
structure SharedReflection where
  id : Nat
  date : String
  user_ids : List UserId
  reflection : String
deriving DecidableEq, Repr

/-- `entry_access_logs` table (migration lines 722–729). -/
structure AccessLog where
  id : Nat
  entry_id : Nat
  entry_type : String
  accessed_by : UserId
  entry_owner : UserId
deriving DecidableEq, Repr

/-- `private_notes` table (migration lines 739–748). -/
structure PrivateNote where
  id : Nat
  user_id : UserId
  entry_id : Nat
  entry_type : String
  note_content : String
deriving DecidableEq, Repr

/-- An object in the `storage.objects` bucket: `folder1` is
`(storage.foldername(name))[1]`, the top-level folder of the object path,
which the policies compare with `auth.uid()::text`. -/
structure StorageObject where
  bucket_id : String
  folder1 : String
deriving DecidableEq, Repr

/-! ## Row-level-security policies (migration lines 766–920)

Each SQL `CREATE POLICY ... USING p` / `WITH CHECK p` becomes a `Bool`
predicate.  RLS being enabled on a table, an operation with no matching
policy is denied (default deny). -/

/-- `profiles` SELECT policy (lines 778–783): own row, row naming the
requester as partner, or row named as partner by the requester's own row
(`id IN (SELECT partner_id FROM profiles WHERE id = auth.uid())`). -/
def profiles_select_policy (db : List Profile) (uid : UserId) (p : Profile) : Bool :=
  uid == p.id || p.partner_id == some uid ||
    db.any (fun q => q.id == uid && q.partner_id == some p.id)

/-- `profiles` UPDATE policy (lines 786–787): `auth.uid() = id`. -/
def profiles_update_policy (uid : UserId) (p : Profile) : Bool :=
  uid == p.id

/-- `profiles` INSERT policy (lines 790–791): `auth.uid() = id`. -/
def profiles_insert_policy (uid : UserId) (p : Profile) : Bool :=
  uid == p.id

/-- `journal_entries` SELECT policy (lines 798–802):
`auth.uid() = user_id OR auth.uid() = ANY(shared_with)`. -/
def journal_entries_select_policy (uid : UserId) (j : JournalEntry) : Bool :=
  uid == j.user_id || j.shared_with.contains uid

/-- `journal_entries` INSERT policy (lines 805–806). -/
def journal_entries_insert_policy (uid : UserId) (j : JournalEntry) : Bool :=
  uid == j.user_id

/-- `journal_entries` UPDATE policy (lines 809–810). -/
def journal_entries_update_policy (uid : UserId) (j : JournalEntry) : Bool :=
  uid == j.user_id

/-- `journal_entries` DELETE policy (lines 813–814). -/
def journal_entries_delete_policy (uid : UserId) (j : JournalEntry) : Bool :=
  uid == j.user_id

/-- `mood_entries` SELECT policy (lines 821–825). -/
def mood_entries_select_policy (uid : UserId) (m : MoodEntry) : Bool :=
  uid == m.user_id || m.shared_with.contains uid

/-- `mood_entries` INSERT policy (lines 828–829). -/
def mood_entries_insert_policy (uid : UserId) (m : MoodEntry) : Bool :=
  uid == m.user_id

/-- `mood_entries` UPDATE policy (lines 832–833). -/
def mood_entries_update_policy (uid : UserId) (m : MoodEntry) : Bool :=
  uid == m.user_id

/-- `mood_entries` DELETE policy (lines 836–837). -/
def mood_entries_delete_policy (uid : UserId) (m : MoodEntry) : Bool :=
  uid == m.user_id

/-- `entry_access_logs` SELECT policy (lines 856–860):
`auth.uid() = entry_owner OR auth.uid() = accessed_by`. -/
def entry_access_logs_select_policy (uid : UserId) (l : AccessLog) : Bool :=
  uid == l.entry_owner || uid == l.accessed_by

/-- `entry_access_logs` INSERT policy (lines 863–864):
`auth.uid() = accessed_by`. -/
def entry_access_logs_insert_policy (uid : UserId) (l : AccessLog) : Bool :=
  uid == l.accessed_by

/-- `entry_access_logs` has no UPDATE policy; with RLS enabled (line 770)
an UPDATE is denied for every identity and row. -/
def entry_access_logs_update_policy (_uid : UserId) (_l : AccessLog) : Bool :=
  false

/-- `entry_access_logs` has no DELETE policy; with RLS enabled (line 770)
a DELETE is denied for every identity and row. -/
def entry_access_logs_delete_policy (_uid : UserId) (_l : AccessLog) : Bool :=
  false

/-- `private_notes` SELECT policy (lines 871–872): `auth.uid() = user_id`. -/
def private_notes_select_policy (uid : UserId) (n : PrivateNote) : Bool :=
  uid == n.user_id

/-- `private_notes` INSERT policy (lines 875–876). -/
def private_notes_insert_policy (uid : UserId) (n : PrivateNote) : Bool :=
  uid == n.user_id

/-- `private_notes` UPDATE policy (lines 879–880). -/
def private_notes_update_policy (uid : UserId) (n : PrivateNote) : Bool :=
  uid == n.user_id

/-- `private_notes` DELETE policy (lines 883–884). -/
def private_notes_delete_policy (uid : UserId) (n : PrivateNote) : Bool :=
  uid == n.user_id

/-- `storage.objects` INSERT policy (lines 891–895): the audio bucket and
`auth.uid()::text = (storage.foldername(name))[1]`. -/
def storage_objects_insert_policy (uid : UserId) (o : StorageObject) : Bool :=
  o.bucket_id == "audio-journal" && toString uid == o.folder1

/-- `storage.objects` SELECT policy (lines 898–906): the audio bucket and
(own folder, or the folder is in
`SELECT partner_id::text FROM profiles WHERE id = auth.uid()`). -/
def storage_objects_select_policy (db : List Profile) (uid : UserId)
    (o : StorageObject) : Bool :=
  o.bucket_id == "audio-journal" &&
    (toString uid == o.folder1 ||
      db.any (fun q => q.id == uid && q.partner_id.map toString == some o.folder1))

/-- `storage.objects` UPDATE policy (lines 909–913). -/
def storage_objects_update_policy (uid : UserId) (o : StorageObject) : Bool :=
  o.bucket_id == "audio-journal" && toString uid == o.folder1

/-- `storage.objects` DELETE policy (lines 916–920). -/
def storage_objects_delete_policy (uid : UserId) (o : StorageObject) : Bool :=
  o.bucket_id == "audio-journal" && toString uid == o.folder1

/-! ## Table-level operations -/

/-- Error message of a violated `UNIQUE` constraint. -/
def uniqueViolation : String := "duplicate key value violates unique constraint"

/-- Insert into `journal_entries` under `UNIQUE(user_id, date)`
(migration line 678): rejected as a conflict when a row with the same
(owner, date) key already exists, the table left unchanged. -/
def journal_entries_insert (t : List JournalEntry) (row : JournalEntry) :
    Except String (List JournalEntry) :=
  if t.any (fun r => r.user_id == row.user_id && r.date == row.date)
  then .error uniqueViolation
  else .ok (t ++ [row])

/-- Insert into `mood_entries` under `UNIQUE(user_id, date)`
(migration line 696). -/
def mood_entries_insert (t : List MoodEntry) (row : MoodEntry) :
    Except String (List MoodEntry) :=
  if t.any (fun r => r.user_id == row.user_id && r.date == row.date)
  then .error uniqueViolation
  else .ok (t ++ [row])

/-- Insert into `shared_reflections` under `UNIQUE(date, user_ids)`
(migration line 712): `user_ids` being a `UUID[]` array, the key compares
the arrays as ordered lists. -/
def shared_reflections_insert (t : List SharedReflection) (row : SharedReflection) :
    Except String (List SharedReflection) :=
  if t.any (fun r => r.date == row.date && r.user_ids == row.user_ids)
  then .error uniqueViolation
  else .ok (t ++ [row])

/-- RLS row filtering on SELECT: the rows of `private_notes` visible to
requester `uid`, further restricted by the query's own predicate `q`
(e.g. "all notes on this entry"). -/
def private_notes_select (uid : UserId) (t : List PrivateNote)
    (q : PrivateNote → Bool) : List PrivateNote :=
  (t.filter (private_notes_select_policy uid)).filter q

/-- RLS-guarded UPDATE on `entry_access_logs`: an update touches only rows
passing the (absent, hence everywhere-false) UPDATE policy. -/
def entry_access_logs_update (uid : UserId) (t : List AccessLog)
    (f : AccessLog → AccessLog) : List AccessLog :=
  t.map (fun l => if entry_access_logs_update_policy uid l then f l else l)

/-- RLS-guarded DELETE on `entry_access_logs`: a delete removes only rows
passing the (absent, hence everywhere-false) DELETE policy. -/
def entry_access_logs_delete (uid : UserId) (t : List AccessLog)
    (p : AccessLog → Bool) : List AccessLog :=
  t.filter (fun l => !(entry_access_logs_delete_policy uid l && p l))

/-! ## Invite-code generation (migration lines 956–989) -/

/-- The fixed alphabet of `generate_invite_code`:
`'ABCDEFGHIJKLMNOPQRSTUVWXYZ0123456789'`. -/
def inviteAlphabet : List Char := "ABCDEFGHIJKLMNOPQRSTUVWXYZ0123456789".toList

/-- `generate_invite_code()` (lines 956–968): eight characters, each drawn
from `inviteAlphabet` at index `floor(random() * 36)`.  The PRNG is
abstracted as an oracle `rand : Nat → Nat` read at consecutive counters
`ctr, ctr+1, …, ctr+7`, each draw reduced `% 36`. -/
def generate_invite_code (rand : Nat → Nat) (ctr : Nat) : String :=
  String.mk ((List.range 8).map (fun i => inviteAlphabet.getD (rand (ctr + i) % 36) 'A'))

/-- The trigger's collision test:
`EXISTS (SELECT 1 FROM profiles WHERE invite_code = NEW.invite_code)`. -/
def invite_code_exists (db : List Profile) (c : String) : Bool :=
  db.any (fun q => q.invite_code == some c)

/-- The `WHILE EXISTS … LOOP` of `set_invite_code` (lines 974–980):
generate a code and regenerate while it collides with an existing
profile's code.  The unbounded SQL loop is given explicit `fuel`; each
iteration consumes the next 8 oracle draws. -/
def invite_code_retry (rand : Nat → Nat) (db : List Profile) :
    Nat → Nat → Option String
  | 0, _ => none
  | fuel + 1, ctr =>
    let c := generate_invite_code rand ctr
    if invite_code_exists db c then invite_code_retry rand db fuel (ctr + 8)
    else some c

/-- `set_invite_code()` BEFORE INSERT trigger (lines 971–989): a new
profile row with `invite_code IS NULL` is assigned a freshly generated,
globally unique code; a row that already carries a code is left as is. -/
def set_invite_code (rand : Nat → Nat) (fuel : Nat) (db : List Profile)
    (newRow : Profile) : Option Profile :=
  match newRow.invite_code with
  | some _ => some newRow
  | none =>
    (invite_code_retry rand db fuel 0).map
      (fun c => { newRow with invite_code := some c })

/-! ## Client request flows (`App.js` lines 233–288)

The three handlers of `JournalApp` are embedded as pure functions.  An
HTTP request is recorded as a `Request` value; `axios` throwing on a
non-2xx response is modelled by `Except`, the error carrying
`error.response?.data?.detail` as an `Option String`.  The
`fetchStats` / `fetchCalendarData` refreshes on the success paths are
recorded as the `statsGet` / `calendarGet` requests they issue;
`window.location.reload()` is outside the model. -/

/-- JavaScript's `String.prototype.trim()` as used by the guards
`!journalEntry.trim()` and `!inviteCode.trim()`: strip leading and
trailing whitespace. -/
def jsTrim (s : String) : String :=
  String.mk (((s.toList.dropWhile Char.isWhitespace).reverse.dropWhile
    Char.isWhitespace).reverse)

/-- One outgoing HTTP request of the client. -/
inductive Request where
  | journalPost (content date mood : String)
  | moodPost (mood date : String)
  | reflectionPost (date : String)
  | invitePost (code : String)
  | statsGet
  | calendarGet
deriving DecidableEq, Repr

/-- The client state read and written by `saveJournalEntry`
(`App.js` lines 190–192): the journal textarea, the selected mood and the
selected date. -/
structure ClientState where
  journalEntry : String
  selectedMood : String
  selectedDate : String
deriving DecidableEq, Repr

/-- The backend stores behind `POST /api/journal` and `POST /api/mood`,
governed by the migration's `UNIQUE(user_id, date)` constraints. -/
structure ServerState where
  journal : List JournalEntry
  moods : List MoodEntry
deriving DecidableEq, Repr

/-- Everything observable about one `saveJournalEntry` call: the client
state after it, the server state after it, the requests it issued in
order, and the alert it showed (if any). -/
structure SaveOutcome where
  client : ClientState
  server : ServerState
  requests : List Request
  alert : Option String
deriving DecidableEq, Repr

/-- `saveJournalEntry` (`App.js` lines 233–259): bail out silently when the
trimmed journal text is empty; otherwise `POST /api/journal`, then — only
when a mood is selected — `POST /api/mood`; on success clear the textarea
and the mood, refresh stats and calendar, and alert success; when either
`await` throws, fall to the catch block and alert the fixed string
`'Failed to save entry'`.  The two POSTs are interpreted against the
server stores' uniqueness-constrained inserts. -/
def saveJournalEntry (uid : UserId) (c : ClientState) (s : ServerState) : SaveOutcome :=
  if jsTrim c.journalEntry = "" then ⟨c, s, [], none⟩
  else
    let jreq := Request.journalPost c.journalEntry c.selectedDate c.selectedMood
    match journal_entries_insert s.journal
        ⟨s.journal.length, uid, c.journalEntry, c.selectedDate,
          some c.selectedMood, none, []⟩ with
    | .error _ => ⟨c, s, [jreq], some "Failed to save entry"⟩
    | .ok j' =>
      if c.selectedMood = "" then
        ⟨{ c with journalEntry := "", selectedMood := "" }, ⟨j', s.moods⟩,
          [jreq, .statsGet, .calendarGet], some "Entry saved successfully!"⟩
      else
        let mreq := Request.moodPost c.selectedMood c.selectedDate
        match mood_entries_insert s.moods
            ⟨s.moods.length, uid, c.selectedMood, c.selectedDate, []⟩ with
        | .error _ => ⟨c, ⟨j', s.moods⟩, [jreq, mreq], some "Failed to save entry"⟩
        | .ok m' =>
          ⟨{ c with journalEntry := "", selectedMood := "" }, ⟨j', m'⟩,
            [jreq, mreq, .statsGet, .calendarGet], some "Entry saved successfully!"⟩

/-- Requests issued and alert shown by one client handler that keeps no
other state. -/
structure ReflectOutcome where
  requests : List Request
  alert : String
deriving DecidableEq, Repr

/-- `generateReflection` (`App.js` lines 261–270): one
`POST /api/generate-reflection/{date}`; on success alert a success message
and refresh the calendar; on failure alert
`error.response?.data?.detail || 'Failed to generate reflection'`. -/
def generateReflection (date : String) (resp : Except (Option String) Unit) :
    ReflectOutcome :=
  match resp with
  | .ok _ => ⟨[.reflectionPost date, .calendarGet], "AI Reflection generated successfully!"⟩
  | .error detail => ⟨[.reflectionPost date], detail.getD "Failed to generate reflection"⟩

/-- Observable outcome of one `invitePartner` call. -/
structure InviteOutcome where
  requests : List Request
  alert : Option String
  inviteCode : String
  showInviteModal : Bool
deriving DecidableEq, Repr

/-- `invitePartner` (`App.js` lines 272–288): bail out when the trimmed
code is empty; otherwise `POST /api/invite-partner`; on success (the
response carrying the partner's name) alert a welcome, clear the code
field, close the modal and refresh stats; on failure alert
`error.response?.data?.detail || 'Failed to invite partner'`, leaving the
code field and the modal as they were. -/
def invitePartner (inviteCode : String) (showModal : Bool)
    (resp : Except (Option String) String) : InviteOutcome :=
  if jsTrim inviteCode = "" then ⟨[], none, inviteCode, showModal⟩
  else
    match resp with
    | .ok partnerName =>
      ⟨[.invitePost inviteCode, .statsGet],
        some ("Partner linked successfully! Welcome " ++ partnerName ++ "!"),
        "", false⟩
    | .error detail =>
      ⟨[.invitePost inviteCode], some (detail.getD "Failed to invite partner"),
        inviteCode, showModal⟩

/-! ## Theorems -/

/-- C1: the claim states that at most one shared-reflection record exists per
date and *unordered* participant pair, a second insert for the same two
participants in either order being rejected.  `UNIQUE(date, user_ids)`
compares the `UUID[]` column as an ordered array, so with the participants
reversed — `[2, 1]` a permutation of `[1, 2]` — the second insert for the
same date succeeds and both reflections coexist, contradicting the claim and
the schema's own comment "One reflection per couple per day". -/
theorem C1_reversed_pair_insert_accepted :
    List.Perm [2, 1] [1, 2] ∧
    shared_reflections_insert [⟨0, "2024-01-01", [1, 2], "first"⟩]
        ⟨1, "2024-01-01", [2, 1], "second"⟩
      = .ok [⟨0, "2024-01-01", [1, 2], "first"⟩,
             ⟨1, "2024-01-01", [2, 1], "second"⟩] :=
  ⟨by decide, rfl⟩

/-- C2: on `journal_entries` and `mood_entries`, a read of a row is allowed
exactly when the requester owns the row or appears in its `shared_with`
allow-list, and an insert, update or delete is allowed exactly when the
requester is the row's owner. -/
theorem C2_entry_row_policies (uid : UserId) (j : JournalEntry) (m : MoodEntry) :
    (journal_entries_select_policy uid j = true ↔
      uid = j.user_id ∨ uid ∈ j.shared_with) ∧
    (journal_entries_insert_policy uid j = true ↔ uid = j.user_id) ∧
    (journal_entries_update_policy uid j = true ↔ uid = j.user_id) ∧
    (journal_entries_delete_policy uid j = true ↔ uid = j.user_id) ∧
    (mood_entries_select_policy uid m = true ↔
      uid = m.user_id ∨ uid ∈ m.shared_with) ∧
    (mood_entries_insert_policy uid m = true ↔ uid = m.user_id) ∧
    (mood_entries_update_policy uid m = true ↔ uid = m.user_id) ∧
    (mood_entries_delete_policy uid m = true ↔ uid = m.user_id) := by
  simp [journal_entries_select_policy, journal_entries_insert_policy,
    journal_entries_update_policy, journal_entries_delete_policy,
    mood_entries_select_policy, mood_entries_insert_policy,
    mood_entries_update_policy, mood_entries_delete_policy,
    List.contains_eq_any_beq]

/-- C3: under `UNIQUE(user_id, date)` on both entry stores, inserting a
second journal entry or mood entry for an (owner, date) pair that already
has one fails with a conflict, the error leaving the table unchanged. -/
theorem C3_one_entry_per_owner_and_day (jt : List JournalEntry)
    (mt : List MoodEntry) (j j' : JournalEntry) (m m' : MoodEntry)
    (hjmem : j ∈ jt) (hju : j'.user_id = j.user_id) (hjd : j'.date = j.date)
    (hmmem : m ∈ mt) (hmu : m'.user_id = m.user_id) (hmd : m'.date = m.date) :
    journal_entries_insert jt j' = .error uniqueViolation ∧
    mood_entries_insert mt m' = .error uniqueViolation := by
  constructor
  · unfold journal_entries_insert
    rw [if_pos]
    exact List.any_eq_true.mpr ⟨j, hjmem, by simp [hju, hjd]⟩
  · unfold mood_entries_insert
    rw [if_pos]
    exact List.any_eq_true.mpr ⟨m, hmmem, by simp [hmu, hmd]⟩

/-- Witness for C3 at a concrete input: a second journal entry and a second
mood entry for owner 1 on 2024-01-01 are both rejected as conflicts. -/
theorem C3_one_entry_per_owner_and_day_witness :
    journal_entries_insert [⟨0, 1, "first text", "2024-01-01", none, none, []⟩]
        ⟨1, 1, "second text", "2024-01-01", none, none, []⟩
      = .error uniqueViolation ∧
    mood_entries_insert [⟨0, 1, "Happy", "2024-01-01", []⟩]
        ⟨1, 1, "Sad", "2024-01-01", []⟩ = .error uniqueViolation :=
  C3_one_entry_per_owner_and_day _ _ _ _ _ _ (List.mem_singleton.mpr rfl) rfl rfl
    (List.mem_singleton.mpr rfl) rfl rfl

/-- C4: a private note is reachable only by its author: for any requester
other than the author, the `private_notes` SELECT, INSERT, UPDATE and
DELETE policies all deny, and no SELECT — whatever its query predicate,
including the entry owner asking for all notes on their own entry — ever
returns the note. -/
theorem C4_private_note_author_only (r : UserId) (n : PrivateNote)
    (h : r ≠ n.user_id) :
    private_notes_select_policy r n = false ∧
    private_notes_insert_policy r n = false ∧
    private_notes_update_policy r n = false ∧
    private_notes_delete_policy r n = false ∧
    ∀ (t : List PrivateNote) (q : PrivateNote → Bool),
      n ∉ private_notes_select r t q := by
  refine ⟨by simp [private_notes_select_policy, h],
    by simp [private_notes_insert_policy, h],
    by simp [private_notes_update_policy, h],
    by simp [private_notes_delete_policy, h], ?_⟩
  intro t q hn
  rw [private_notes_select, List.mem_filter, List.mem_filter] at hn
  exact h (by simpa [private_notes_select_policy] using hn.1.2)

/-- Witness for C4 at a concrete input: requester 2 (the entry owner) is
denied every operation on the note authored by 1 on entry 5, and selecting
all notes on entry 5 does not return it. -/
theorem C4_private_note_author_only_witness :
    private_notes_select_policy 2 ⟨0, 1, 5, "journal", "my note"⟩ = false ∧
    private_notes_update_policy 2 ⟨0, 1, 5, "journal", "my note"⟩ = false ∧
    private_notes_delete_policy 2 ⟨0, 1, 5, "journal", "my note"⟩ = false ∧
    ⟨0, 1, 5, "journal", "my note"⟩ ∉
      private_notes_select 2 [⟨0, 1, 5, "journal", "my note"⟩]
        (fun n => n.entry_id == 5) := by
  have h := C4_private_note_author_only 2 ⟨0, 1, 5, "journal", "my note"⟩ (by decide)
  exact ⟨h.1, h.2.2.1, h.2.2.2.1, h.2.2.2.2 _ _⟩

/-- C5: a profile row is readable exactly when the requester is the profile,
is named by it as partner, or has the profile as the partner named by the
requester's own row, and updatable/insertable exactly by the profile
itself. -/
theorem C5_profile_visibility_policies (db : List Profile) (uid : UserId)
    (p : Profile) :
    (profiles_select_policy db uid p = true ↔
      uid = p.id ∨ p.partner_id = some uid ∨
        ∃ q, q ∈ db ∧ q.id = uid ∧ q.partner_id = some p.id) ∧
    (profiles_update_policy uid p = true ↔ uid = p.id) ∧
    (profiles_insert_policy uid p = true ↔ uid = p.id) := by
  simp [profiles_select_policy, profiles_update_policy, profiles_insert_policy,
    or_assoc]

/-- C6: `entry_access_logs` is append-only — UPDATE and DELETE, having no
policy, change nothing for any identity; INSERT is allowed exactly when the
inserting identity is the row's `accessed_by` viewer; SELECT is allowed
exactly when the requester is the logged viewer or the entry owner. -/
theorem C6_access_logs_append_only (uid : UserId) (t : List AccessLog)
    (f : AccessLog → AccessLog) (p : AccessLog → Bool) (l : AccessLog) :
    entry_access_logs_update uid t f = t ∧
    entry_access_logs_delete uid t p = t ∧
    (entry_access_logs_insert_policy uid l = true ↔ uid = l.accessed_by) ∧
    (entry_access_logs_select_policy uid l = true ↔
      uid = l.accessed_by ∨ uid = l.entry_owner) := by
  refine ⟨?_, ?_, ?_, ?_⟩
  · simp [entry_access_logs_update, entry_access_logs_update_policy]
  · simp [entry_access_logs_delete, entry_access_logs_delete_policy]
  · simp [entry_access_logs_insert_policy]
  · simp [entry_access_logs_select_policy, or_comm]

/-- C7, counterexample: with a mood entry already stored for (owner 1,
2024-01-01) but no journal entry, `saveJournalEntry` posts the journal
entry (which succeeds) and then the mood entry (which conflicts); the
handler alerts the fixed string "Failed to save entry", yet the journal
write is already visible — the server state after the failing operation
differs from the state before it, refuting "all state visible before the
operation is left untouched — no partial writes are visible". -/
theorem C7_partial_write_visible :
    (saveJournalEntry 1 ⟨"hello", "Happy", "2024-01-01"⟩
        ⟨[], [⟨0, 1, "Tired", "2024-01-01", []⟩]⟩).alert
      = some "Failed to save entry" ∧
    (saveJournalEntry 1 ⟨"hello", "Happy", "2024-01-01"⟩
        ⟨[], [⟨0, 1, "Tired", "2024-01-01", []⟩]⟩).client
      = ⟨"hello", "Happy", "2024-01-01"⟩ ∧
    (saveJournalEntry 1 ⟨"hello", "Happy", "2024-01-01"⟩
        ⟨[], [⟨0, 1, "Tired", "2024-01-01", []⟩]⟩).server
      ≠ ⟨[], [⟨0, 1, "Tired", "2024-01-01", []⟩]⟩ :=
  ⟨rfl, rfl, by decide⟩

/-- C7, amended: every failing operation surfaces as a request failure and
is issued exactly once (no retry); `generateReflection` and `invitePartner`
display the failure's human-readable detail message and leave prior state
untouched; `saveJournalEntry` displays the fixed generic message
"Failed to save entry" instead of the detail, and leaves client and server
state untouched when the journal insert itself fails — but when the
journal insert succeeds and the companion mood insert fails, the journal
write remains visible on the server (a partial write). -/
theorem C7_failure_surfacing_amended (uid : UserId) (c : ClientState)
    (s : ServerState) (date code d : String) (modal : Bool) :
    (generateReflection date (.error (some d)) = ⟨[.reflectionPost date], d⟩) ∧
    (jsTrim code ≠ "" →
      invitePartner code modal (.error (some d)) =
        ⟨[.invitePost code], some d, code, modal⟩) ∧
    (jsTrim c.journalEntry ≠ "" →
      s.journal.any (fun r => r.user_id == uid && r.date == c.selectedDate) = true →
      saveJournalEntry uid c s =
        ⟨c, s, [.journalPost c.journalEntry c.selectedDate c.selectedMood],
          some "Failed to save entry"⟩) ∧
    (jsTrim c.journalEntry ≠ "" → c.selectedMood ≠ "" →
      s.journal.any (fun r => r.user_id == uid && r.date == c.selectedDate) = false →
      s.moods.any (fun r => r.user_id == uid && r.date == c.selectedDate) = true →
      saveJournalEntry uid c s =
        ⟨c,
          ⟨s.journal ++ [⟨s.journal.length, uid, c.journalEntry, c.selectedDate,
              some c.selectedMood, none, []⟩], s.moods⟩,
          [.journalPost c.journalEntry c.selectedDate c.selectedMood,
            .moodPost c.selectedMood c.selectedDate],
          some "Failed to save entry"⟩) := by
  refine ⟨rfl, ?_, ?_, ?_⟩
  · intro h
    simp [invitePartner, h]
  · intro htrim hdup
    simp [saveJournalEntry, htrim, journal_entries_insert, hdup]
  · intro htrim hmood hjok hmdup
    simp [saveJournalEntry, htrim, journal_entries_insert, hjok,
      mood_entries_insert, hmdup, hmood]

/-- Witness for C7 at concrete inputs: a reflection failure and an invite
failure display their detail messages; a duplicate journal entry leaves
everything untouched under the generic message; and a mood conflict after a
successful journal post leaves the journal write visible. -/
theorem C7_failure_surfacing_amended_witness :
    generateReflection "2024-01-01"
        (.error (some "Both partners need entries for this date"))
      = ⟨[.reflectionPost "2024-01-01"],
          "Both partners need entries for this date"⟩ ∧
    invitePartner "QB123456" true (.error (some "Invalid invite code"))
      = ⟨[.invitePost "QB123456"], some "Invalid invite code", "QB123456", true⟩ ∧
    saveJournalEntry 1 ⟨"dup text", "", "2024-01-01"⟩
        ⟨[⟨0, 1, "old", "2024-01-01", none, none, []⟩], []⟩
      = ⟨⟨"dup text", "", "2024-01-01"⟩,
          ⟨[⟨0, 1, "old", "2024-01-01", none, none, []⟩], []⟩,
          [.journalPost "dup text" "2024-01-01" ""],
          some "Failed to save entry"⟩ ∧
    saveJournalEntry 1 ⟨"fresh", "Happy", "2024-01-02"⟩
        ⟨[], [⟨0, 1, "Tired", "2024-01-02", []⟩]⟩
      = ⟨⟨"fresh", "Happy", "2024-01-02"⟩,
          ⟨[⟨0, 1, "fresh", "2024-01-02", some "Happy", none, []⟩],
            [⟨0, 1, "Tired", "2024-01-02", []⟩]⟩,
          [.journalPost "fresh" "2024-01-02" "Happy",
            .moodPost "Happy" "2024-01-02"],
          some "Failed to save entry"⟩ := by
  have h1 := C7_failure_surfacing_amended 1 ⟨"dup text", "", "2024-01-01"⟩
    ⟨[⟨0, 1, "old", "2024-01-01", none, none, []⟩], []⟩ "2024-01-01" "QB123456"
    "Both partners need entries for this date" true
  have h2 := C7_failure_surfacing_amended 1 ⟨"fresh", "Happy", "2024-01-02"⟩
    ⟨[], [⟨0, 1, "Tired", "2024-01-02", []⟩]⟩ "2024-01-01" "QB123456"
    "Invalid invite code" true
  exact ⟨h1.1, h2.2.1 (by decide), h1.2.2.1 (by decide) rfl,
    h2.2.2.2 (by decide) (by decide) rfl rfl⟩

/-- C8: on the `audio-journal` object store, INSERT, UPDATE and DELETE on a
folder are allowed exactly when the requester is the folder's owner, and
SELECT exactly when the requester is the owner or the requester's own
profile names the folder's owner as partner — so a linked partner may read
but, not being the folder owner, never write. -/
theorem C8_audio_object_policies (db : List Profile) (uid : UserId)
    (o : StorageObject) :
    (storage_objects_insert_policy uid o = true ↔
      o.bucket_id = "audio-journal" ∧ toString uid = o.folder1) ∧
    (storage_objects_update_policy uid o = true ↔
      o.bucket_id = "audio-journal" ∧ toString uid = o.folder1) ∧
    (storage_objects_delete_policy uid o = true ↔
      o.bucket_id = "audio-journal" ∧ toString uid = o.folder1) ∧
    (storage_objects_select_policy db uid o = true ↔
      o.bucket_id = "audio-journal" ∧
        (toString uid = o.folder1 ∨
          ∃ q, q ∈ db ∧ q.id = uid ∧
            ∃ pid, q.partner_id = some pid ∧ toString pid = o.folder1)) := by
  refine ⟨?_, ?_, ?_, ?_⟩
  · simp [storage_objects_insert_policy]
  · simp [storage_objects_update_policy]
  · simp [storage_objects_delete_policy]
  · simp [storage_objects_select_policy, Option.map_eq_some', and_assoc]

/-- Every code produced by `generate_invite_code` has exactly 8 characters. -/
theorem generate_invite_code_length (rand : Nat → Nat) (ctr : Nat) :
    (generate_invite_code rand ctr).length = 8 := by
  simp [generate_invite_code, String.length]

/-- Every character of a generated code lies in the fixed 36-letter
alphabet. -/
theorem generate_invite_code_chars (rand : Nat → Nat) (ctr : Nat) :
    ∀ ch ∈ (generate_invite_code rand ctr).toList, ch ∈ inviteAlphabet := by
  intro ch hch
  simp only [generate_invite_code, String.toList, String.mk, List.mem_map] at hch
  obtain ⟨i, _, hi⟩ := hch
  have hlt : rand (ctr + i) % 36 < inviteAlphabet.length :=
    Nat.mod_lt _ (by decide)
  rw [← hi, List.getD_eq_getElem _ _ hlt]
  exact List.getElem_mem hlt

/-- A code the retry loop settles on collides with no existing profile's
code and is itself a generated code. -/
theorem invite_code_retry_sound (rand : Nat → Nat) (db : List Profile) :
    ∀ fuel ctr c, invite_code_retry rand db fuel ctr = some c →
      invite_code_exists db c = false ∧ ∃ k, c = generate_invite_code rand k := by
  intro fuel
  induction fuel with
  | zero => intro ctr c h; simp [invite_code_retry] at h
  | succ n ih =>
    intro ctr c h
    rw [invite_code_retry] at h
    by_cases hex : invite_code_exists db (generate_invite_code rand ctr) = true
    · rw [if_pos hex] at h
      exact ih _ _ h
    · rw [if_neg hex] at h
      cases h
      exact ⟨Bool.eq_false_iff.mpr hex, ctr, rfl⟩

/-- Witness for the retry-loop soundness: with the oracle delivering
`0, 1, 2, …`, the first generated code `"ABCDEFGH"` collides with the lone
existing profile, so the loop settles on a fresh generated code. -/
theorem invite_code_retry_sound_witness :
    invite_code_exists [⟨1, "a@example.com", none, some "ABCDEFGH", none, true⟩]
        "IJKLMNOP" = false ∧
    ∃ k, "IJKLMNOP" = generate_invite_code (fun n => n) k :=
  invite_code_retry_sound (fun n => n)
    [⟨1, "a@example.com", none, some "ABCDEFGH", none, true⟩] 2 0 "IJKLMNOP" rfl

/-- C9: a generated invite code is 8 characters from the fixed alphabet;
the `set_invite_code` trigger, on a profile inserted without a code,
assigns exactly such a code, regenerated past collisions until it matches
no existing profile's code, leaving every other field alone; a profile
inserted with a code keeps it. -/
theorem C9_invite_code_uniqueness (rand : Nat → Nat) (ctr fuel : Nat)
    (db : List Profile) (row out : Profile) :
    ((generate_invite_code rand ctr).length = 8 ∧
      ∀ ch ∈ (generate_invite_code rand ctr).toList, ch ∈ inviteAlphabet) ∧
    (row.invite_code = none → set_invite_code rand fuel db row = some out →
      ∃ c, out = { row with invite_code := some c } ∧
        (∀ q ∈ db, q.invite_code ≠ some c) ∧
        c.length = 8 ∧ ∀ ch ∈ c.toList, ch ∈ inviteAlphabet) ∧
    (∀ c0, row.invite_code = some c0 →
      set_invite_code rand fuel db row = some row) := by
  refine ⟨⟨generate_invite_code_length rand ctr,
    generate_invite_code_chars rand ctr⟩, ?_, ?_⟩
  · intro hnone hset
    rw [set_invite_code, hnone] at hset
    simp only [Option.map_eq_some'] at hset
    obtain ⟨c, hc, hout⟩ := hset
    obtain ⟨hfresh, k, hk⟩ := invite_code_retry_sound rand db fuel 0 c hc
    refine ⟨c, hout.symm, ?_, ?_, ?_⟩
    · intro q hq hcode
      have : invite_code_exists db c = true :=
        List.any_eq_true.mpr ⟨q, hq, by simp [hcode]⟩
      simp [this] at hfresh
    · rw [hk]; exact generate_invite_code_length rand k
    · rw [hk]; exact generate_invite_code_chars rand k
  · intro c0 hc0
    rw [set_invite_code, hc0]

/-- Witness for C9 at a concrete input: profile 2 inserted with a null code
— under an oracle whose first draw collides with profile 1's code
`"ABCDEFGH"` — is assigned a fresh 8-character alphabet code unique among
the profiles. -/
theorem C9_invite_code_uniqueness_witness :
    ∃ c, (⟨2, "b@example.com", none, some "IJKLMNOP", none, true⟩ : Profile) =
        { (⟨2, "b@example.com", none, none, none, true⟩ : Profile) with
            invite_code := some c } ∧
      (∀ q ∈ [(⟨1, "a@example.com", none, some "ABCDEFGH", none, true⟩ : Profile)],
        q.invite_code ≠ some c) ∧
      c.length = 8 ∧ ∀ ch ∈ c.toList, ch ∈ inviteAlphabet :=
  (C9_invite_code_uniqueness (fun n => n) 0 2
      [⟨1, "a@example.com", none, some "ABCDEFGH", none, true⟩]
      ⟨2, "b@example.com", none, none, none, true⟩
      ⟨2, "b@example.com", none, some "IJKLMNOP", none, true⟩).2.1 rfl rfl

/-- C10: when the trimmed journal text is empty, `saveJournalEntry` issues
no request, changes no client or server state and shows no alert; and a
mood request is ever issued only when a mood is currently selected. -/
theorem C10_save_entry_guards (uid : UserId) (c : ClientState) (s : ServerState) :
    (jsTrim c.journalEntry = "" → saveJournalEntry uid c s = ⟨c, s, [], none⟩) ∧
    (∀ mood date,
      Request.moodPost mood date ∈ (saveJournalEntry uid c s).requests →
        c.selectedMood ≠ "") := by
  constructor
  · intro h
    rw [saveJournalEntry, if_pos h]
  · intro mood date hmem hcm
    by_cases htrim : jsTrim c.journalEntry = ""
    · simp [saveJournalEntry, htrim] at hmem
    · rw [saveJournalEntry, if_neg htrim, hcm] at hmem
      split at hmem
      · simp at hmem
      · simp at hmem

/-- Witness for C10 at concrete inputs: a whitespace-only entry is a
complete no-op, and a save that did issue a mood request had a non-empty
selected mood. -/
theorem C10_save_entry_guards_witness :
    saveJournalEntry 1 ⟨"   ", "Happy", "2024-03-05"⟩ ⟨[], []⟩
      = ⟨⟨"   ", "Happy", "2024-03-05"⟩, ⟨[], []⟩, [], none⟩ ∧
    ("Happy" : String) ≠ "" := by
  have h1 := C10_save_entry_guards 1 ⟨"   ", "Happy", "2024-03-05"⟩ ⟨[], []⟩
  have h2 := C10_save_entry_guards 1 ⟨"a note", "Happy", "2024-03-05"⟩ ⟨[], []⟩
  exact ⟨h1.1 rfl, h2.2 "Happy" "2024-03-05" (by decide)⟩
